import Mathlib

/-!
Verification development for the Kingdom Spices & Herbs backend dashboard.

The definitions below are a shallow embedding of the JavaScript/Express/
Mongoose code of the repository: the message priority classifier and the
message routes (`routes/messages.js`, shipped unnamed as `part_003`), the
Message schema (`models/Message.js`), the product and team list endpoints
(`routes/products.js`, `routes/team.js`), the category deletion guard
(`routes/contact.js`), and the dashboard overview counts
(`routes/dashboard.js`).  Strings stay strings, machine integers are `Int`
or `Nat`, the document store is an explicit association list, and fallible
operations return explicit status codes.
-/

namespace KSH

/-! ## JavaScript string primitives -/

/-- JavaScript `String.prototype.toLowerCase` restricted to the ASCII range used by the
repository's keyword lists (mapped over the character list so that the
definition evaluates inside the kernel). -/
def jsToLower (s : String) : String := String.mk (s.data.map Char.toLower)

/-- Prefix test on character lists (helper for substring containment). -/
def charsBegins : List Char → List Char → Bool
  | [], _ => true
  | _ :: _, [] => false
  | a :: as, b :: bs => a == b && charsBegins as bs

/-- Does `pat` occur as a contiguous run inside `hay`?  (Helper for
`String.prototype.includes`.) -/
def charsContains (hay pat : List Char) : Bool :=
  match hay with
  | [] => charsBegins pat []
  | _ :: t => charsBegins pat hay || charsContains t pat

/-- JavaScript `String.prototype.includes`: substring containment. -/
def strIncludes (hay pat : String) : Bool :=
  charsContains hay.toList pat.toList

/-- A pattern `pat` is a `charsBegins`-prefix of `pat ++ b` for any `b`. -/
theorem charsBegins_append (pat b : List Char) : charsBegins pat (pat ++ b) = true := by
  induction pat with
  | nil => rfl
  | cons c cs ih => simp [charsBegins, ih]

/-- The empty pattern is found in every haystack. -/
theorem charsContains_nil (hay : List Char) : charsContains hay [] = true := by
  cases hay <;> rfl

/-- A pattern occurring contiguously inside the haystack is found by
`charsContains`. -/
theorem charsContains_of_inner (a pat b : List Char) :
    charsContains (a ++ pat ++ b) pat = true := by
  induction a with
  | nil =>
    cases pat with
    | nil => exact charsContains_nil _
    | cons c cs =>
      simp only [List.nil_append, charsContains]
      rw [charsBegins_append]
      rfl
  | cons x xs ih =>
    cases h : x :: xs ++ pat ++ b with
    | nil => simp at h
    | cons y ys =>
      simp only [List.cons_append] at h
      injection h with h1 h2
      simp only [List.cons_append, charsContains, ← h2, ih, Bool.or_true]

/-- String-level corollary: `strIncludes (a ++ pat ++ b) pat` always holds. -/
theorem strIncludes_append (a pat b : String) :
    strIncludes (a ++ pat ++ b) pat = true := by
  have h : (a ++ pat ++ b).toList = a.toList ++ pat.toList ++ b.toList := by
    simp [String.toList, String.data_append]
  simp only [strIncludes, h]
  exact charsContains_of_inner a.toList pat.toList b.toList

/-! ## The message priority classifier

`routes/messages.js`, POST handler:

```js
const text = (subject + ' ' + message).toLowerCase();
if (text.includes('ceo') || text.includes('urgent') || text.includes('important')) {
  messageData.priority = 'CEO';
} else if (category === 'sales' || text.includes('sales manager')) {
  messageData.priority = 'Sales Manager';
} else if (category === 'herbs' || text.includes('herb') || text.includes('natural')) {
  messageData.priority = 'Herbs Priority';
} else if (category === 'complaint') {
  messageData.priority = 'high';
} else {
  messageData.priority = 'medium';
}
```

`category` is the raw optional request-body field, hence `Option String`. -/

def classifyPriority (subject message : String) (category : Option String) : String :=
  let text := jsToLower (subject ++ " " ++ message)
  if strIncludes text "ceo" || strIncludes text "urgent" || strIncludes text "important" then
    "CEO"
  else if category == some "sales" || strIncludes text "sales manager" then
    "Sales Manager"
  else if category == some "herbs" || strIncludes text "herb" || strIncludes text "natural" then
    "Herbs Priority"
  else if category == some "complaint" then
    "high"
  else
    "medium"

/-- The classifier exactly as the specification words it: first match wins
over the case-insensitive concatenation `subject ++ " " ++ message`, rules
numbered 1–5.  Written from the spec text, to be compared with
`classifyPriority` (which is written from the source). -/
def specClassifier (subject message : String) (category : Option String) : String :=
  let text := jsToLower (subject ++ " " ++ message)
  -- Rule 1: text contains "ceo", "urgent", or "important" → CEO.
  if strIncludes text "ceo" then "CEO"
  else if strIncludes text "urgent" then "CEO"
  else if strIncludes text "important" then "CEO"
  -- Rule 2: else category sales or text contains "sales manager" → Sales Manager.
  else if category == some "sales" then "Sales Manager"
  else if strIncludes text "sales manager" then "Sales Manager"
  -- Rule 3: else category herbs or text contains "herb"/"natural" → Herbs Priority.
  else if category == some "herbs" then "Herbs Priority"
  else if strIncludes text "herb" then "Herbs Priority"
  else if strIncludes text "natural" then "Herbs Priority"
  -- Rule 4: else category complaint → high.
  else if category == some "complaint" then "high"
  -- Rule 5: else → medium.
  else "medium"

/-! ## A small regular-expression engine

`models/Message.js` validates the email field with the regular expression
`/^\w+([.-]?\w+)*@\w+([.-]?\w+)*(\.\w{2,3})+$/`.  We embed it with a
Brzozowski-derivative matcher over predicate character classes. -/

inductive RE where
  | emp : RE
  | eps : RE
  | chr : (Char → Bool) → RE
  | cat : RE → RE → RE
  | alt : RE → RE → RE
  | star : RE → RE

def RE.nullable : RE → Bool
  | .emp => false
  | .eps => true
  | .chr _ => false
  | .cat a b => a.nullable && b.nullable
  | .alt a b => a.nullable || b.nullable
  | .star _ => true

def RE.deriv : RE → Char → RE
  | .emp, _ => .emp
  | .eps, _ => .emp
  | .chr p, c => if p c then .eps else .emp
  | .cat a b, c =>
    if a.nullable then .alt (.cat (a.deriv c) b) (b.deriv c)
    else .cat (a.deriv c) b
  | .alt a b, c => .alt (a.deriv c) (b.deriv c)
  | .star a, c => .cat (a.deriv c) (.star a)

/-- Full-string match (the schema regex is anchored `^...$`). -/
def reMatch (r : RE) (s : String) : Bool :=
  (s.data.foldl RE.deriv r).nullable

/-- Regex `X+` as `X · X*`. -/
def RE.plus (r : RE) : RE := .cat r (.star r)

/-- Regex `X?` as `ε | X`. -/
def RE.opt (r : RE) : RE := .alt .eps r

/-- Class `\w`: ASCII word character. -/
def wordChar : RE := .chr (fun c => c.isAlphanum || c == '_')

/-- Group `([.-]?\w+)`: optional separator followed by word characters. -/
def sepWord : RE := .cat (RE.opt (.chr (fun c => c == '.' || c == '-'))) (RE.plus wordChar)

/-- Shape `\w+([.-]?\w+)*`: the local-part / domain-label shape of the schema's
email pattern. -/
def wordRun : RE := .cat (RE.plus wordChar) (.star sepWord)

/-- Group `(\.\w\x7b2,3\x7d)`: a dot followed by two or three word characters. -/
def dotTld : RE := .cat (.chr (fun c => c == '.')) (.cat wordChar (.cat wordChar (RE.opt wordChar)))

/-- The Message schema's email pattern
`/^\w+([.-]?\w+)*@\w+([.-]?\w+)*(\.\w{2,3})+$/`. -/
def emailRE : RE := .cat wordRun (.cat (.chr (fun c => c == '@')) (.cat wordRun (RE.plus dotTld)))

/-! ## The Message schema (`models/Message.js`)

Fields and field-level validators of `messageSchema`.  `required` on a
trimmed string means non-empty, `maxlength` bounds the length, `enum`
restricts to the listed values, `match` applies the email pattern, and
`lowercase` lowercases on assignment (applied where documents are built).
Dates are modelled as `Nat` timestamps, `ObjectId`s as `String`s. -/

structure NoteDoc where
  content : String
  addedBy : Option String
  addedAt : Nat
  deriving Repr, DecidableEq

structure MessageDoc where
  name : String
  email : String
  phone : Option String
  subject : String
  message : String
  isRead : Bool
  readAt : Option Nat
  replied : Bool
  repliedAt : Option Nat
  priority : String
  category : String
  source : String
  ipAddress : Option String
  userAgent : Option String
  notes : List NoteDoc
  deriving Repr, DecidableEq

/-- Field enum `messageSchema.priority.enum`. -/
def priorityEnum : List String := ["low", "medium", "high"]

/-- Field enum `messageSchema.category.enum`. -/
def messageCategoryEnum : List String :=
  ["general", "support", "sales", "partnership", "complaint", "other"]

/-- Field enum `messageSchema.source.enum`. -/
def sourceEnum : List String := ["website", "email", "phone", "social", "other"]

/-- Mongoose document validation for `messageSchema`, run by `save()`:
the conjunction of the schema's field-level validators. -/
def validateMessage (d : MessageDoc) : Bool :=
  (d.name ≠ "" && d.name.length ≤ 100) &&
  (d.email ≠ "" && reMatch emailRE d.email) &&
  (match d.phone with | none => true | some p => p.length ≤ 20) &&
  (d.subject ≠ "" && d.subject.length ≤ 200) &&
  (d.message ≠ "" && d.message.length ≤ 2000) &&
  priorityEnum.contains d.priority &&
  messageCategoryEnum.contains d.category &&
  sourceEnum.contains d.source &&
  d.notes.all (fun n => n.content ≠ "" && n.content.length ≤ 500)

/-! ## Message routes (`routes/messages.js`) -/

/-- JavaScript `String.prototype.trim` (and express-validator's `trim()` sanitizer),
over the character list so it evaluates in the kernel. -/
def jsTrim (s : String) : String :=
  String.mk (((s.data.dropWhile Char.isWhitespace).reverse.dropWhile Char.isWhitespace).reverse)

/-- Modelled from the spec: express-validator's `isEmail` check is an
external library collaborator ("request validation … treated as glue");
it is modelled with the same email shape as the schema pattern.  No claim
in this development hinges on the email boundary itself. -/
def evIsEmail (s : String) : Bool := reMatch emailRE s

/-- Category allow-list used by the route validators
(`isIn([...])` on POST and PUT — note that it includes `'herbs'`,
which the schema's own enum does not). -/
def routeCategoryEnum : List String :=
  ["general", "support", "sales", "partnership", "complaint", "herbs", "other"]

/-- Priority allow-list of the PUT `/api/messages/:id` validator. -/
def putPriorityEnum : List String :=
  ["low", "medium", "high", "CEO", "Sales Manager", "Herbs Priority"]

/-- A POST `/api/messages` request body (plus the request metadata the
handler reads: `req.ip`, `req.get('User-Agent')`). -/
structure CreateMsgReq where
  name : String
  email : String
  phone : Option String
  subject : String
  message : String
  category : Option String
  ip : Option String
  userAgent : Option String
  deriving Repr, DecidableEq

/-- The express-validator chain of POST `/api/messages` (body fields are
trimmed by the `trim()` sanitizers before the length checks). -/
def msgBodyValid (r : CreateMsgReq) : Bool :=
  (1 ≤ (jsTrim r.name).length && (jsTrim r.name).length ≤ 100) &&
  evIsEmail r.email &&
  (1 ≤ (jsTrim r.subject).length && (jsTrim r.subject).length ≤ 200) &&
  (1 ≤ (jsTrim r.message).length && (jsTrim r.message).length ≤ 2000) &&
  (match r.phone with | none => true | some p => (jsTrim p).length ≤ 20) &&
  (match r.category with | none => true | some c => routeCategoryEnum.contains c)

/-- The `messageData` object built by the POST handler, with the schema
defaults (`isRead`/`replied` false, `category` `'general'`, `source`
`'website'`) filled in by the store.  The sanitizers have trimmed
`name`/`subject`/`message`/`phone`, and the schema's `lowercase: true`
lowercases the email on assignment.  `if (phone)` / `if (category)` are
JavaScript truthiness tests, false on the empty string. -/
def buildMessageDoc (r : CreateMsgReq) : MessageDoc :=
  { name := jsTrim r.name
    email := jsToLower r.email
    phone := match r.phone with
      | none => none
      | some p => if jsTrim p = "" then none else some (jsTrim p)
    subject := jsTrim r.subject
    message := jsTrim r.message
    isRead := false
    readAt := none
    replied := false
    repliedAt := none
    priority := classifyPriority (jsTrim r.subject) (jsTrim r.message) r.category
    category := match r.category with
      | none => "general"
      | some c => if c = "" then "general" else c
    source := "website"
    ipAddress := r.ip
    userAgent := r.userAgent
    notes := [] }

/-- The message store: an id-indexed association list plus the next fresh
id, standing for the `messages` collection. -/
structure MsgDB where
  nextId : Nat
  messages : List (Nat × MessageDoc)
  deriving Repr, DecidableEq

/-- Lookup `Message.findById`. -/
def findMsg (db : MsgDB) (id : Nat) : Option MessageDoc :=
  (db.messages.lookup id)

/-- Overwrite the document stored under `id` (a successful `save()` on a
fetched document). -/
def replaceMsg (db : MsgDB) (id : Nat) (d : MessageDoc) : MsgDB :=
  { db with messages := db.messages.map (fun p => if p.1 = id then (id, d) else p) }

/-- The part of an HTTP response the claims talk about. -/
structure MsgResp where
  status : Nat
  success : Bool
  priority : Option String := none
  deriving Repr, DecidableEq

/-- POST `/api/messages`: validate the body, build `messageData`, classify
the priority, and `save()`.  A failed schema validation throws, and the
handler's `catch` answers 500 (`'Server error while sending message'`)
for every store-layer error. -/
def createMessage (db : MsgDB) (r : CreateMsgReq) : MsgResp × MsgDB :=
  if !msgBodyValid r then ({ status := 400, success := false }, db)
  else
    let doc := buildMessageDoc r
    if validateMessage doc then
      ({ status := 201, success := true, priority := some doc.priority },
       { nextId := db.nextId + 1, messages := db.messages ++ [(db.nextId, doc)] })
    else
      ({ status := 500, success := false }, db)

/-- GET `/api/messages/:id`: fetch one message; if it is unread, set
`isRead` and `readAt` and `save()` before answering.  `now` is the
timestamp `new Date()` produces. -/
def getMessage (db : MsgDB) (now : Nat) (id : Nat) : MsgResp × MsgDB :=
  match findMsg db id with
  | none => ({ status := 404, success := false }, db)
  | some m =>
    if m.isRead then ({ status := 200, success := true }, db)
    else
      let m' := { m with isRead := true, readAt := some now }
      if validateMessage m' then ({ status := 200, success := true }, replaceMsg db id m')
      else ({ status := 500, success := false }, db)

/-- A PUT `/api/messages/:id` request body (`isBoolean`-validated fields
modelled as typed booleans). -/
structure UpdateMsgReq where
  isRead : Option Bool
  replied : Option Bool
  priority : Option String
  category : Option String
  deriving Repr, DecidableEq

/-- The express-validator chain of PUT `/api/messages/:id`. -/
def updBodyValid (r : UpdateMsgReq) : Bool :=
  (match r.priority with | none => true | some p => putPriorityEnum.contains p) &&
  (match r.category with | none => true | some c => routeCategoryEnum.contains c)

/-- The field updates the PUT handler applies to a fetched message.
`readAt`/`repliedAt` are stamped only when the flag turns true and no
stamp exists yet; `if (priority)` / `if (category)` are truthiness
tests. -/
def applyMsgUpdate (now : Nat) (r : UpdateMsgReq) (m : MessageDoc) : MessageDoc :=
  let m1 := match r.isRead with
    | none => m
    | some b => { m with isRead := b, readAt := if b && m.readAt == none then some now else m.readAt }
  let m2 := match r.replied with
    | none => m1
    | some b => { m1 with replied := b, repliedAt := if b && m1.repliedAt == none then some now else m1.repliedAt }
  let m3 := match r.priority with
    | none => m2
    | some p => if p ≠ "" then { m2 with priority := p } else m2
  match r.category with
  | none => m3
  | some c => if c ≠ "" then { m3 with category := c } else m3

/-- PUT `/api/messages/:id`: validate, fetch, apply the updates, `save()`.
The handler's `catch` maps `CastError` to 400 and everything else —
including a schema `ValidationError` — to 500. -/
def updateMessage (db : MsgDB) (now : Nat) (id : Nat) (r : UpdateMsgReq) : MsgResp × MsgDB :=
  if !updBodyValid r then ({ status := 400, success := false }, db)
  else
    match findMsg db id with
    | none => ({ status := 404, success := false }, db)
    | some m =>
      let m' := applyMsgUpdate now r m
      if validateMessage m' then ({ status := 200, success := true }, replaceMsg db id m')
      else ({ status := 500, success := false }, db)

/-! ## JavaScript integer parsing and express-validator `isInt` -/

/-- Decimal value of a digit run. -/
def digitsVal (cs : List Char) : Nat :=
  cs.foldl (fun a c => 10 * a + (c.toNat - '0'.toNat)) 0

/-- JavaScript's global `parseInt` in base 10: skip whitespace, optional
sign, then the longest leading digit run; `NaN` (here `none`) when no
digit follows. -/
def jsParseInt (s : String) : Option Int :=
  match (jsTrim s).data with
  | '-' :: rest =>
    let ds := rest.takeWhile Char.isDigit
    if ds.isEmpty then none else some (-(digitsVal ds : Int))
  | '+' :: rest =>
    let ds := rest.takeWhile Char.isDigit
    if ds.isEmpty then none else some (digitsVal ds)
  | cs =>
    let ds := cs.takeWhile Char.isDigit
    if ds.isEmpty then none else some (digitsVal ds)

/-- Fallback `parseInt(x) || dflt`: an absent parameter, an unparsable one and a
parsed `0` are all falsy and take the default. -/
def jsParseIntOr (s : Option String) (dflt : Int) : Int :=
  match s with
  | none => dflt
  | some str =>
    match jsParseInt str with
    | none => dflt
    | some n => if n = 0 then dflt else n

/-- The integer value express-validator's `isInt` accepts: an optional
sign followed by digits only. -/
def evIntVal (s : String) : Option Int :=
  match s.data with
  | [] => none
  | '-' :: r => if !r.isEmpty && r.all Char.isDigit then some (-(digitsVal r : Int)) else none
  | '+' :: r => if !r.isEmpty && r.all Char.isDigit then some (digitsVal r) else none
  | cs => if cs.all Char.isDigit then some (digitsVal cs) else none

/-- Validator `isInt` with both a min and a max bound. -/
def evIsIntBetween (s : String) (lo hi : Int) : Bool :=
  match evIntVal s with
  | none => false
  | some n => lo ≤ n && n ≤ hi

/-- Validator `isInt` with only a min bound. -/
def evIsIntMin (s : String) (lo : Int) : Bool :=
  match evIntVal s with
  | none => false
  | some n => lo ≤ n

/-! ## The shared pagination shape -/

/-- The `pagination` object every list endpoint returns. -/
structure Pagination where
  current : Int
  pages : Nat
  total : Nat
  limit : Int
  deriving Repr, DecidableEq

/-- JavaScript `Math.ceil(total / limit)` for the positive limits the endpoints
produce (`limit ≤ 0` never reaches Mongo in the validated or claimed
paths and is mapped to `0` to keep the function total). -/
def jsCeilPages (total : Nat) (limit : Int) : Nat :=
  if limit ≤ 0 then 0 else (total + limit.toNat - 1) / limit.toNat

/-- A list response: status, success flag, the page of records and the
pagination object (absent on validation failures). -/
structure ListResp (α : Type) where
  status : Nat
  success : Bool
  data : List α
  pagination : Option Pagination
  deriving Repr, DecidableEq

/-- Mongo `.skip((page - 1) * limit).limit(limit)` on the filtered, sorted
records.  (MongoDB rejects negative skips; the validated and claimed
paths only produce nonnegative ones, so `Int.toNat` truncation is
exact there.) -/
def pageSlice {α : Type} (l : List α) (page limit : Int) : List α :=
  (l.drop ((page - 1) * limit).toNat).take limit.toNat

/-- The response every list endpoint builds from its filtered record set
and its effective `page`/`limit`. -/
def paginateResp {α : Type} (filtered : List α) (page limit : Int) : ListResp α :=
  { status := 200
    success := true
    data := pageSlice filtered page limit
    pagination := some
      { current := page
        pages := jsCeilPages filtered.length limit
        total := filtered.length
        limit := limit } }

/-- Insertion step for the newest-first sort. -/
def insertDesc {α : Type} (key : α → Nat) (d : α) : List α → List α
  | [] => [d]
  | x :: xs => if key x ≤ key d then d :: x :: xs else x :: insertDesc key d xs

/-- Mongo `.sort` by `createdAt` descending: newest first. -/
def sortDesc {α : Type} (key : α → Nat) : List α → List α
  | [] => []
  | x :: xs => insertDesc key x (sortDesc key xs)

theorem mem_insertDesc {α : Type} (key : α → Nat) (d a : α) (l : List α) :
    a ∈ insertDesc key d l ↔ a = d ∨ a ∈ l := by
  induction l with
  | nil => simp [insertDesc]
  | cons x xs ih =>
    simp only [insertDesc]
    split
    · simp [List.mem_cons]
    · simp [List.mem_cons, ih]
      tauto

theorem mem_sortDesc {α : Type} (key : α → Nat) (a : α) (l : List α) :
    a ∈ sortDesc key l ↔ a ∈ l := by
  induction l with
  | nil => simp [sortDesc]
  | cons x xs ih => simp [sortDesc, mem_insertDesc, ih]

/-! ## Products (`models/Product.js`, `routes/products.js`) -/

/-- A Product document (`productSchema`); the category reference is an
`ObjectId` kept as a `String`, `createdAt` comes from `timestamps`. -/
structure ProductDoc where
  name : String
  description : String
  image : String
  imagePublicId : Option String
  category : String
  price : Option Int
  inStock : Bool
  featured : Bool
  tags : List String
  origin : Option String
  certifications : List String
  createdAt : Nat
  deriving Repr, DecidableEq

/-- Check `mongoose.Types.ObjectId.isValid`: a 24-character hex string (or any
12-character string, which Mongo reads as raw bytes). -/
def isValidObjectId (s : String) : Bool :=
  s.length == 12 ||
    (s.length == 24 && s.data.all fun c =>
      c.isDigit || ('a' ≤ c && c ≤ 'f') || ('A' ≤ c && c ≤ 'F'))

/-- Modelled from the spec: Mongo's `$text` full-text search over the
product text index (`name`, `description`, `tags`) — "full-text match
across a resource-specific set of text fields … OR semantics", modelled
as case-insensitive token containment. -/
def productTextMatch (q : String) (d : ProductDoc) : Bool :=
  ((jsToLower q).splitOn " ").any fun tok =>
    strIncludes (jsToLower d.name) tok ||
    strIncludes (jsToLower d.description) tok ||
    d.tags.any fun t => strIncludes (jsToLower t) tok

/-- The query parameters of GET `/api/products`. -/
structure ProductsQuery where
  page : Option String := none
  limit : Option String := none
  category : Option String := none
  search : Option String := none
  featured : Option String := none
  inStock : Option String := none
  deriving Repr, DecidableEq

/-- The filter object GET `/api/products` builds: `category` only when it
is a valid `ObjectId`, `featured`/`inStock` compared against the literal
string `'true'` when present, `search` via `$text`. -/
def productMatches (q : ProductsQuery) (d : ProductDoc) : Bool :=
  (match q.category with
    | none => true
    | some c => if isValidObjectId c then d.category == c else true) &&
  (match q.featured with
    | none => true
    | some f => d.featured == (f == "true")) &&
  (match q.inStock with
    | none => true
    | some f => d.inStock == (f == "true")) &&
  (match q.search with
    | none => true
    | some s => productTextMatch s d)

/-- GET `/api/products`: no validator chain; `page` defaults to 1 and
`limit` to 100 via `parseInt(x) || d`; filter, sort newest-first,
paginate. -/
def productsList (docs : List ProductDoc) (q : ProductsQuery) : ListResp ProductDoc :=
  paginateResp (sortDesc ProductDoc.createdAt (docs.filter (productMatches q)))
    (jsParseIntOr q.page 1) (jsParseIntOr q.limit 100)

/-! ## Team members (`models/TeamMember.js`, `routes/team.js`) -/

/-- A TeamMember document (the fields the list endpoint touches, plus
identity fields; `createdAt` from `timestamps`). -/
structure TeamDoc where
  name : String
  position : String
  email : String
  department : Option String
  isActive : Bool
  createdAt : Nat
  deriving Repr, DecidableEq

/-- The query parameters of GET `/api/team`. -/
structure TeamQuery where
  page : Option String := none
  limit : Option String := none
  department : Option String := none
  search : Option String := none
  isActive : Option String := none
  deriving Repr, DecidableEq

/-- The express-validator chain of GET `/api/team`: `page` a positive
integer, `limit` an integer between 1 and 100, bounded filter lengths. -/
def teamListValid (q : TeamQuery) : Bool :=
  (match q.page with | none => true | some s => evIsIntMin s 1) &&
  (match q.limit with | none => true | some s => evIsIntBetween s 1 100) &&
  (match q.department with | none => true | some s => s.length ≤ 50) &&
  (match q.search with | none => true | some s => s.length ≤ 100)

/-- Modelled from the spec: the team `$text` index covers `name`,
`position`, `department` — OR semantics, modelled as case-insensitive
token containment. -/
def teamTextMatch (q : String) (d : TeamDoc) : Bool :=
  ((jsToLower q).splitOn " ").any fun tok =>
    strIncludes (jsToLower d.name) tok ||
    strIncludes (jsToLower d.position) tok ||
    (match d.department with | none => false | some dep => strIncludes (jsToLower dep) tok)

/-- The filter object GET `/api/team` builds: `department` as a
case-insensitive regular-expression (here: substring) match,
`isActive` compared against the literal string `'true'`. -/
def teamMatches (q : TeamQuery) (d : TeamDoc) : Bool :=
  (match q.department with
    | none => true
    | some dep =>
      match d.department with
      | none => false
      | some v => strIncludes (jsToLower v) (jsToLower dep)) &&
  (match q.isActive with
    | none => true
    | some f => d.isActive == (f == "true")) &&
  (match q.search with
    | none => true
    | some s => teamTextMatch s d)

/-- GET `/api/team`: run the validator chain (400 on failure), then
`page` defaults to 1 and `limit` to 10, filter, sort newest-first,
paginate. -/
def teamList (docs : List TeamDoc) (q : TeamQuery) : ListResp TeamDoc :=
  if !teamListValid q then
    { status := 400, success := false, data := [], pagination := none }
  else
    paginateResp (sortDesc TeamDoc.createdAt (docs.filter (teamMatches q)))
      (jsParseIntOr q.page 1) (jsParseIntOr q.limit 10)

/-! ## Messages list (`routes/messages.js`, GET) -/

/-- The query parameters of GET `/api/messages`. -/
structure MessagesQuery where
  page : Option String := none
  limit : Option String := none
  category : Option String := none
  priority : Option String := none
  search : Option String := none
  isRead : Option String := none
  replied : Option String := none
  deriving Repr, DecidableEq

/-- The express-validator chain of GET `/api/messages`: `page` a positive
integer, `limit` between 1 and 100, `category`/`priority` from the route
allow-lists, `search` at most 100 characters (`isRead`/`replied` are not
validated). -/
def messagesListValid (q : MessagesQuery) : Bool :=
  (match q.page with | none => true | some s => evIsIntMin s 1) &&
  (match q.limit with | none => true | some s => evIsIntBetween s 1 100) &&
  (match q.category with | none => true | some c => routeCategoryEnum.contains c) &&
  (match q.priority with | none => true | some p => putPriorityEnum.contains p) &&
  (match q.search with | none => true | some s => s.length ≤ 100)

/-- Modelled from the spec: the Message `$text` index covers `name`,
`email`, `subject`, `message` — OR semantics, modelled as
case-insensitive token containment. -/
def messageTextMatch (s : String) (d : MessageDoc) : Bool :=
  ((jsToLower s).splitOn " ").any fun tok =>
    strIncludes (jsToLower d.name) tok ||
    strIncludes (jsToLower d.email) tok ||
    strIncludes (jsToLower d.subject) tok ||
    strIncludes (jsToLower d.message) tok

/-- The filter object GET `/api/messages` builds: `category`/`priority`/
`search` on truthiness, `isRead`/`replied` on presence compared against
the literal string `'true'`. -/
def messageMatches (q : MessagesQuery) (d : MessageDoc) : Bool :=
  (match q.category with | none => true | some c => if c ≠ "" then d.category == c else true) &&
  (match q.priority with | none => true | some p => if p ≠ "" then d.priority == p else true) &&
  (match q.isRead with | none => true | some s => d.isRead == (s == "true")) &&
  (match q.replied with | none => true | some s => d.replied == (s == "true")) &&
  (match q.search with | none => true | some s => if s ≠ "" then messageTextMatch s d else true)

/-- The aggregate `stats` object the messages list also returns, grouped
over the whole collection: total, unread, unreplied, high-priority. -/
def messagesStats (msgs : List (Nat × MessageDoc)) : Nat × Nat × Nat × Nat :=
  (msgs.length,
   (msgs.filter fun p => !p.2.isRead).length,
   (msgs.filter fun p => !p.2.replied).length,
   (msgs.filter fun p => p.2.priority == "high").length)

/-- GET `/api/messages`: run the validator chain (400 on failure), then
`page` defaults to 1 and `limit` to 10, filter, sort newest-first,
paginate.  Fresh ids are handed out in creation order, so the id stands
in for the `createdAt` timestamp in the newest-first sort. -/
def messagesList (db : MsgDB) (q : MessagesQuery) : ListResp (Nat × MessageDoc) :=
  if !messagesListValid q then
    { status := 400, success := false, data := [], pagination := none }
  else
    paginateResp (sortDesc Prod.fst (db.messages.filter fun p => messageMatches q p.2))
      (jsParseIntOr q.page 1) (jsParseIntOr q.limit 10)

/-! ## Certificates (`models/Certificate.js`, `routes/certificates.js`) -/

/-- A Certificate document (`certificateSchema`); dates as `Nat`
timestamps, `createdAt` from `timestamps`. -/
structure CertificateDoc where
  name : String
  description : String
  image : String
  imagePublicId : Option String
  issuer : Option String
  issueDate : Option Nat
  expiryDate : Option Nat
  certificateNumber : Option String
  isActive : Bool
  category : String
  documentUrl : Option String
  createdAt : Nat
  deriving Repr, DecidableEq

/-- Field enum `certificateSchema.category.enum`, also the list route's
`isIn` allow-list. -/
def certCategoryEnum : List String :=
  ["quality", "organic", "safety", "environmental", "other"]

/-- The query parameters of GET `/api/certificates`. -/
structure CertificatesQuery where
  page : Option String := none
  limit : Option String := none
  category : Option String := none
  search : Option String := none
  isActive : Option String := none
  deriving Repr, DecidableEq

/-- The express-validator chain of GET `/api/certificates`. -/
def certificatesListValid (q : CertificatesQuery) : Bool :=
  (match q.page with | none => true | some s => evIsIntMin s 1) &&
  (match q.limit with | none => true | some s => evIsIntBetween s 1 100) &&
  (match q.category with | none => true | some c => certCategoryEnum.contains c) &&
  (match q.search with | none => true | some s => s.length ≤ 100)

/-- Modelled from the spec: the Certificate `$text` index covers `name`,
`description`, `issuer` — OR semantics, modelled as case-insensitive
token containment. -/
def certTextMatch (s : String) (d : CertificateDoc) : Bool :=
  ((jsToLower s).splitOn " ").any fun tok =>
    strIncludes (jsToLower d.name) tok ||
    strIncludes (jsToLower d.description) tok ||
    (match d.issuer with | none => false | some iss => strIncludes (jsToLower iss) tok)

/-- The filter object GET `/api/certificates` builds. -/
def certMatches (q : CertificatesQuery) (d : CertificateDoc) : Bool :=
  (match q.category with | none => true | some c => if c ≠ "" then d.category == c else true) &&
  (match q.isActive with | none => true | some s => d.isActive == (s == "true")) &&
  (match q.search with | none => true | some s => if s ≠ "" then certTextMatch s d else true)

/-- GET `/api/certificates`: validator chain (400 on failure), `page`
defaults to 1 and `limit` to 10, filter, sort newest-first, paginate. -/
def certificatesList (docs : List CertificateDoc) (q : CertificatesQuery) :
    ListResp CertificateDoc :=
  if !certificatesListValid q then
    { status := 400, success := false, data := [], pagination := none }
  else
    paginateResp (sortDesc CertificateDoc.createdAt (docs.filter (certMatches q)))
      (jsParseIntOr q.page 1) (jsParseIntOr q.limit 10)

/-! ## The Category document (model file absent from the sources) -/

/-- Modelled from the spec: `models/Category.js` is not among the shipped
sources; the spec's data-model table gives a Category a `name` (unique,
case-insensitive), and the category routes additionally read an
`isActive` flag and the `createdAt` timestamp.  Only identity matters to
the deletion guard, so the extra fields default. -/
structure CategoryDoc where
  name : String
  isActive : Bool := true
  createdAt : Nat := 0
  deriving Repr, DecidableEq

/-! ## Product creation (`routes/products.js`, POST) -/

/-- Mongoose document validation for `productSchema`: `required` trimmed
strings are non-empty, `maxlength` bounds, `price` has `min: 0`. -/
def validateProduct (d : ProductDoc) : Bool :=
  (d.name ≠ "" && d.name.length ≤ 100) &&
  (d.description ≠ "" && d.description.length ≤ 1000) &&
  d.image ≠ "" &&
  d.category ≠ "" &&
  (match d.price with | none => true | some p => 0 ≤ p)

/-- A POST `/api/products` request: multipart body fields plus the
optional uploaded file (`req.file.path`, `req.file.filename`).  The
`tags`/`certifications` fields arrive as an array or a comma-joined
string; both branches of `Array.isArray(x) ? x : x.split(',')…` produce a
string list, which is what is modelled. -/
structure CreateProductReq where
  name : Option String := none
  description : Option String := none
  category : Option String := none
  price : Option Int := none
  tags : Option (List String) := none
  origin : Option String := none
  certifications : Option (List String) := none
  file : Option (String × String) := none
  deriving Repr, DecidableEq

/-- The response shape of POST `/api/products`. -/
structure ProdResp where
  status : Nat
  success : Bool
  deriving Repr, DecidableEq

/-- POST `/api/products`: require `name`/`description`/`category`
(truthiness), require a well-formed and existing category id, fall back
to a placeholder image, then `save()`.  The handler's `catch` maps a
`ValidationError` to 400 and anything else to 500 — in this model the
only store-layer failure is schema validation, hence 400. -/
def createProduct (cats : List (String × CategoryDoc)) (prods : List ProductDoc)
    (now : Nat) (r : CreateProductReq) : ProdResp × List ProductDoc :=
  match r.name, r.description, r.category with
  | some name, some description, some category =>
    if name = "" || description = "" || category = "" then
      ({ status := 400, success := false }, prods)
    else if !isValidObjectId category then
      ({ status := 400, success := false }, prods)
    else
      match cats.lookup category with
      | none => ({ status := 400, success := false }, prods)
      | some _ =>
        let doc : ProductDoc :=
          { name := name
            description := description
            image := match r.file with
              | some (path, _) => path
              | none => "https://via.placeholder.com/300x300?text=No+Image"
            imagePublicId := match r.file with
              | some (_, filename) => some filename
              | none => none
            category := category
            price := match r.price with
              | some p => if p ≠ 0 then some p else none
              | none => none
            inStock := true
            featured := false
            tags := r.tags.getD []
            origin := r.origin
            certifications := r.certifications.getD []
            createdAt := now }
        if validateProduct doc then ({ status := 201, success := true }, prods ++ [doc])
        else ({ status := 400, success := false }, prods)
  | _, _, _ => ({ status := 400, success := false }, prods)

/-! ## Category deletion (`routes/contact.js`, categories router) -/

/-- The response shape of DELETE `/api/categories/:id`. -/
structure CatResp where
  status : Nat
  success : Bool
  message : String
  deriving Repr, DecidableEq

/-- DELETE `/api/categories/:id`: find the category, count the Products
whose `category` reference points at it, refuse with the count in the
message when there are any, otherwise `findByIdAndDelete`. -/
def deleteCategory (cats : List (String × CategoryDoc)) (prods : List ProductDoc)
    (id : String) : CatResp × List (String × CategoryDoc) :=
  match cats.lookup id with
  | none => ({ status := 404, success := false, message := "Category not found" }, cats)
  | some _ =>
    let productCount := (prods.filter fun p => p.category == id).length
    if productCount > 0 then
      ({ status := 400, success := false
         message := "Cannot delete category. It has " ++ toString productCount ++
           " products. Please move or delete the products first." }, cats)
    else
      ({ status := 200, success := true, message := "Category deleted successfully" },
       cats.filter fun p => p.1 ≠ id)

/-! ## Categories list (`routes/contact.js`, categories router, GET) -/

/-- The query parameters of GET `/api/categories`. -/
structure CategoriesQuery where
  page : Option String := none
  limit : Option String := none
  search : Option String := none
  isActive : Option String := none
  deriving Repr, DecidableEq

/-- The express-validator chain of GET `/api/categories`: `page` a
positive integer, `limit` between 1 and 100, `search` at most 100
characters. -/
def categoriesListValid (q : CategoriesQuery) : Bool :=
  (match q.page with | none => true | some s => evIsIntMin s 1) &&
  (match q.limit with | none => true | some s => evIsIntBetween s 1 100) &&
  (match q.search with | none => true | some s => s.length ≤ 100)

/-- Modelled from the spec: the Category `$text` search (the model file
with its index is absent), as case-insensitive token containment over the
category name. -/
def categoryTextMatch (s : String) (c : CategoryDoc) : Bool :=
  ((jsToLower s).splitOn " ").any fun tok => strIncludes (jsToLower c.name) tok

/-- The filter object GET `/api/categories` builds: `isActive` on
presence against the literal `'true'`, `search` on truthiness. -/
def categoryMatches (q : CategoriesQuery) (c : CategoryDoc) : Bool :=
  (match q.isActive with | none => true | some s => c.isActive == (s == "true")) &&
  (match q.search with | none => true | some s => if s ≠ "" then categoryTextMatch s c else true)

/-- A category of the list response, joined with its product counts
(total and in-stock) from the products aggregation; a category no
product references reports zero. -/
structure CategoryWithCounts where
  id : String
  category : CategoryDoc
  productCount : Nat
  inStockCount : Nat
  deriving Repr, DecidableEq

/-- GET `/api/categories`: validator chain (400 on failure), `page`
defaults to 1 and `limit` to 50, filter, sort newest-first, paginate,
then join each returned category with its product counts. -/
def categoriesList (cats : List (String × CategoryDoc)) (prods : List ProductDoc)
    (q : CategoriesQuery) : ListResp CategoryWithCounts :=
  if !categoriesListValid q then
    { status := 400, success := false, data := [], pagination := none }
  else
    let page := jsParseIntOr q.page 1
    let limit := jsParseIntOr q.limit 50
    let filtered := sortDesc (fun p => p.2.createdAt) (cats.filter fun p => categoryMatches q p.2)
    { status := 200
      success := true
      data := (pageSlice filtered page limit).map fun p =>
        { id := p.1
          category := p.2
          productCount := (prods.filter fun pr => pr.category == p.1).length
          inStockCount := (prods.filter fun pr => pr.category == p.1 && pr.inStock).length }
      pagination := some
        { current := page
          pages := jsCeilPages filtered.length limit
          total := filtered.length
          limit := limit } }

/-! ## Contact methods (`models/Contact.js`, `routes/contact.js`, GET) -/

/-- A Contact document (`contactSchema`); `createdAt` from
`timestamps`. -/
structure ContactDoc where
  type : String
  label : String
  value : String
  icon : Option String
  createdAt : Nat
  deriving Repr, DecidableEq

/-- The static `Contact.getExcludedTypes()` list. -/
def excludedContactTypes : List String :=
  ["website", "social", "facebook", "twitter", "instagram", "linkedin", "youtube", "tiktok"]

/-- The query parameters of GET `/api/contact`.  `page` and `limit` can
arrive like on any request, but this handler never reads them. -/
structure ContactsQuery where
  page : Option String := none
  limit : Option String := none
  sortBy : Option String := none
  sortOrder : Option String := none
  deriving Repr, DecidableEq

/-- The express-validator chain of GET `/api/contact`: only `sortBy` and
`sortOrder` are validated — no page/limit validation exists here. -/
def contactsListValid (q : ContactsQuery) : Bool :=
  (match q.sortBy with
    | none => true
    | some s => (["type", "label", "createdAt"] : List String).contains s) &&
  (match q.sortOrder with
    | none => true
    | some s => (["asc", "desc"] : List String).contains s)

/-- Lexicographic order on character lists (by code point), the order a
string sort key uses. -/
def charsLe : List Char → List Char → Bool
  | [], _ => true
  | _ :: _, [] => false
  | a :: as, b :: bs =>
    if a.toNat < b.toNat then true
    else if b.toNat < a.toNat then false
    else charsLe as bs

/-- String comparison for the dynamic sort. -/
def strLe (a b : String) : Bool := charsLe a.data b.data

/-- Insertion step for a comparator-driven sort. -/
def insertLe {α : Type} (le : α → α → Bool) (d : α) : List α → List α
  | [] => [d]
  | x :: xs => if le d x then d :: x :: xs else x :: insertLe le d xs

/-- Insertion sort by an arbitrary comparator (the dynamic `sortObj`). -/
def sortLe {α : Type} (le : α → α → Bool) : List α → List α
  | [] => []
  | x :: xs => insertLe le x (sortLe le xs)

/-- The sort GET `/api/contact` builds: `sortObj[sortBy] = sortOrder ===
'desc' ? -1 : 1` when `sortBy` is truthy, else `createdAt` descending. -/
def contactSortLe (sortBy sortOrder : Option String) : ContactDoc → ContactDoc → Bool :=
  match sortBy with
  | some s =>
    if s ≠ "" then
      let asc : ContactDoc → ContactDoc → Bool :=
        if s = "type" then fun a b => strLe a.type b.type
        else if s = "label" then fun a b => strLe a.label b.label
        else fun a b => a.createdAt ≤ b.createdAt
      if sortOrder == some "desc" then fun a b => asc b a else asc
    else fun a b => b.createdAt ≤ a.createdAt
  | none => fun a b => b.createdAt ≤ a.createdAt

/-- The response of GET `/api/contact`: data plus a `meta` object
`{total, sortBy, sortOrder}` — no pagination object exists on this
endpoint. -/
structure ContactsResp where
  status : Nat
  success : Bool
  data : List ContactDoc
  meta : Option (Nat × String × String)
  deriving Repr, DecidableEq

/-- GET `/api/contact`: validate `sortBy`/`sortOrder` (400 on failure),
filter out the excluded types, sort dynamically, and return everything —
there is no page/skip/limit logic at all. -/
def contactsList (docs : List ContactDoc) (q : ContactsQuery) : ContactsResp :=
  if !contactsListValid q then
    { status := 400, success := false, data := [], meta := none }
  else
    let filtered := docs.filter fun d => !excludedContactTypes.contains d.type
    let sorted := sortLe (contactSortLe q.sortBy q.sortOrder) filtered
    { status := 200
      success := true
      data := sorted
      meta := some (sorted.length,
        (match q.sortBy with | some s => if s ≠ "" then s else "createdAt" | none => "createdAt"),
        (match q.sortOrder with | some s => if s ≠ "" then s else "desc" | none => "desc")) }

/-! ## Dashboard overview (`routes/dashboard.js`) -/

/-- A BSON value, as far as the dashboard query needs one. -/
inductive BVal where
  | bool : Bool → BVal
  | str : String → BVal
  | nat : Nat → BVal
  deriving Repr, DecidableEq

/-- The BSON fields of a stored Message document.  The schema is strict
(the Mongoose default), so exactly the schema's paths appear; optional
paths that were never set are absent from the stored document. -/
def messageFields (d : MessageDoc) : List (String × BVal) :=
  [("name", .str d.name), ("email", .str d.email)] ++
  (match d.phone with | none => [] | some p => [("phone", .str p)]) ++
  [("subject", .str d.subject), ("message", .str d.message), ("isRead", .bool d.isRead)] ++
  (match d.readAt with | none => [] | some t => [("readAt", .nat t)]) ++
  [("replied", .bool d.replied)] ++
  (match d.repliedAt with | none => [] | some t => [("repliedAt", .nat t)]) ++
  [("priority", .str d.priority), ("category", .str d.category), ("source", .str d.source)] ++
  (match d.ipAddress with | none => [] | some v => [("ipAddress", .str v)]) ++
  (match d.userAgent with | none => [] | some v => [("userAgent", .str v)])

/-- MongoDB equality query `{ field: v }` for a non-null `v`: the document
matches when the field is present with exactly that value (a missing
field never matches a non-null equality). -/
def fieldEquals (doc : List (String × BVal)) (field : String) (v : BVal) : Bool :=
  match doc.lookup field with
  | some w => w == v
  | none => false

/-- Count `Message.countDocuments` with filter `read: false`, the `unreadMessagesCount`
of GET `/api/dashboard/overview`. -/
def dashboardUnreadCount (msgs : List MessageDoc) : Nat :=
  (msgs.filter fun d => fieldEquals (messageFields d) "read" (BVal.bool false)).length

/-- How many stored messages are actually unread (`isRead` false) — the
count the messages route itself aggregates. -/
def actualUnreadCount (msgs : List MessageDoc) : Nat :=
  (msgs.filter fun d => !d.isRead).length

/-- A stored Message document never carries a `read` field: the schema's
paths are `name`, `email`, …, `isRead`, … and `read` is not among them. -/
theorem messageFields_read_none (d : MessageDoc) :
    (messageFields d).lookup "read" = none := by
  rcases d with ⟨n, e, ph, s, m, ir, ra, rp, rpa, pr, c, src, ip, ua, nts⟩
  cases ph <;> cases ra <;> cases rpa <;> cases ip <;> cases ua <;>
    simp [messageFields, List.lookup]

/-! ## Helper lemmas and claim theorems -/

/-- The classifier of the source equals the spec's rule list on every
input (first match wins over the lowercased `subject ++ " " ++ message`). -/
theorem classifyPriority_eq_specClassifier (s m : String) (c : Option String) :
    classifyPriority s m c = specClassifier s m c := by
  simp only [classifyPriority, specClassifier]
  cases h1 : strIncludes (jsToLower (s ++ " " ++ m)) "ceo" <;>
  cases h2 : strIncludes (jsToLower (s ++ " " ++ m)) "urgent" <;>
  cases h3 : strIncludes (jsToLower (s ++ " " ++ m)) "important" <;>
  cases h4 : strIncludes (jsToLower (s ++ " " ++ m)) "sales manager" <;>
  cases h5 : strIncludes (jsToLower (s ++ " " ++ m)) "herb" <;>
  cases h6 : strIncludes (jsToLower (s ++ " " ++ m)) "natural" <;>
  simp [h1, h2, h3, h4, h5, h6]

/-- C1: the message-creation classifier assigns the priority label by
first-match-wins over the case-insensitive concatenation
`subject ++ " " ++ message`: the five spec rules in order (CEO keywords;
sales category or "sales manager"; herbs category or "herb"/"natural";
complaint category; medium).  In particular, an input whose text contains
both "urgent" and "sales manager" yields CEO, not Sales Manager. -/
theorem C1_classifier_rule_order :
    (∀ (s m : String) (c : Option String), classifyPriority s m c = specClassifier s m c) ∧
    strIncludes (jsToLower ("Urgent request" ++ " " ++ "please ask the Sales Manager")) "urgent" = true ∧
    strIncludes (jsToLower ("Urgent request" ++ " " ++ "please ask the Sales Manager")) "sales manager" = true ∧
    classifyPriority "Urgent request" "please ask the Sales Manager" (some "general") = "CEO" ∧
    classifyPriority "hello" "please ask the sales manager" (some "general") = "Sales Manager" ∧
    classifyPriority "Urgent request" "need help" (some "general") = "CEO" ∧
    classifyPriority "order" "I love your herbs" (some "general") = "Herbs Priority" ∧
    classifyPriority "issue" "bad service" (some "complaint") = "high" ∧
    classifyPriority "hi" "just saying hello" (some "general") = "medium" :=
  ⟨classifyPriority_eq_specClassifier, by decide, by decide, by decide, by decide,
   by decide, by decide, by decide, by decide⟩

/-- C9: the priority the create handler derives is a pure deterministic
function of `{subject, message, category}` alone: it equals
`classifyPriority` of those three fields, and two requests agreeing on
them — whatever their name, email, phone, ip or user agent, and whatever
store they hit — get the identical label. -/
theorem C9_classifier_deterministic :
    (∀ r : CreateMsgReq, (buildMessageDoc r).priority =
      classifyPriority (jsTrim r.subject) (jsTrim r.message) r.category) ∧
    (∀ r1 r2 : CreateMsgReq, r1.subject = r2.subject → r1.message = r2.message →
      r1.category = r2.category →
      (buildMessageDoc r1).priority = (buildMessageDoc r2).priority) := by
  constructor
  · intro r; rfl
  · intro r1 r2 hs hm hc
    show classifyPriority (jsTrim r1.subject) (jsTrim r1.message) r1.category =
      classifyPriority (jsTrim r2.subject) (jsTrim r2.message) r2.category
    rw [hs, hm, hc]

/-- Witness for C9: two concrete requests differing in every identity
field but agreeing on subject/message/category receive the same label. -/
theorem C9_classifier_deterministic_witness :
    (buildMessageDoc
      { name := "Ann", email := "ann@b.co", phone := none, subject := "an urgent matter"
        message := "call me", category := some "general", ip := some "1.2.3.4"
        userAgent := some "curl" }).priority =
    (buildMessageDoc
      { name := "Bob", email := "bob@c.co", phone := some "123", subject := "an urgent matter"
        message := "call me", category := some "general", ip := none
        userAgent := none }).priority :=
  C9_classifier_deterministic.2 _ _ rfl rfl rfl

/-! ### C2: the schema's priority enum -/

/-- The store invariant: every stored message's priority lies in the
schema's `enum: ['low', 'medium', 'high']`. -/
def msgStoreInv (db : MsgDB) : Bool :=
  db.messages.all fun p => priorityEnum.contains p.2.priority

/-- A document that passes `messageSchema` validation has its priority in
the schema enum. -/
theorem validateMessage_priority_mem (d : MessageDoc) (h : validateMessage d = true) :
    d.priority ∈ priorityEnum := by
  simp only [validateMessage, Bool.and_eq_true] at h
  have := h.1.1.1.2
  simpa [List.contains_iff_exists_mem_beq, beq_iff_eq] using this

theorem contains_eq_false_of_not_mem {x : String} {l : List String} (h : x ∉ l) :
    l.contains x = false := by
  simpa [List.contains_iff_exists_mem_beq, beq_iff_eq] using h

/-- A creation whose classifier label is outside the enum cannot persist:
the store is unchanged and the handler does not answer 201. -/
theorem createMessage_rejects_nonenum (db : MsgDB) (r : CreateMsgReq)
    (h : classifyPriority (jsTrim r.subject) (jsTrim r.message) r.category ∉ priorityEnum) :
    (createMessage db r).2 = db ∧ (createMessage db r).1.status ≠ 201 := by
  have hval : validateMessage (buildMessageDoc r) = false := by
    have hc : priorityEnum.contains (buildMessageDoc r).priority = false :=
      contains_eq_false_of_not_mem h
    simp only [validateMessage, hc, Bool.and_false, Bool.false_and]
  unfold createMessage
  cases hbv : msgBodyValid r <;> simp [hbv, hval]

theorem msgStoreInv_create (db : MsgDB) (r : CreateMsgReq) (h : msgStoreInv db = true) :
    msgStoreInv (createMessage db r).2 = true := by
  unfold createMessage
  cases hbv : msgBodyValid r
  · simpa [hbv] using h
  · cases hv : validateMessage (buildMessageDoc r)
    · simpa [hbv, hv] using h
    · have hmem := validateMessage_priority_mem _ hv
      simp only [msgStoreInv, List.all_eq_true] at h ⊢
      simp only [hbv, hv, Bool.not_true, Bool.false_eq_true, if_false, if_true]
      intro p hp
      simp only [List.mem_append, List.mem_singleton] at hp
      rcases hp with hp | rfl
      · exact h p hp
      · simpa [List.contains_iff_exists_mem_beq, beq_iff_eq] using hmem

theorem msgStoreInv_update (db : MsgDB) (now id : Nat) (r : UpdateMsgReq)
    (h : msgStoreInv db = true) : msgStoreInv (updateMessage db now id r).2 = true := by
  unfold updateMessage
  cases hbv : updBodyValid r
  · simpa [hbv] using h
  · cases hfind : findMsg db id with
    | none => simpa [hbv, hfind] using h
    | some m =>
      cases hv : validateMessage (applyMsgUpdate now r m)
      · simpa [hbv, hfind, hv] using h
      · have hmem := validateMessage_priority_mem _ hv
        simp only [hbv, hfind, hv, Bool.not_true, Bool.false_eq_true, if_false, if_true]
        simp only [msgStoreInv, replaceMsg, List.all_eq_true] at h ⊢
        intro p hp
        rcases List.mem_map.mp hp with ⟨q, hq, rfl⟩
        by_cases hqi : q.1 = id
        · simpa [hqi, List.contains_iff_exists_mem_beq, beq_iff_eq] using hmem
        · simpa [hqi] using h q hq

/-- C2: every Message document the store accepts has priority in the
schema enum `{low, medium, high}`; a message whose classifier-derived
label is outside the enum (CEO, Sales Manager, Herbs Priority) cannot be
persisted — its save is rejected — and the enum invariant is preserved by
every create and every admin update. -/
theorem C2_priority_enum_invariant :
    (∀ d : MessageDoc, validateMessage d = true → d.priority ∈ priorityEnum) ∧
    (∀ (db : MsgDB) (r : CreateMsgReq),
      classifyPriority (jsTrim r.subject) (jsTrim r.message) r.category ∉ priorityEnum →
      (createMessage db r).2 = db ∧ (createMessage db r).1.status ≠ 201) ∧
    (∀ (db : MsgDB) (r : CreateMsgReq),
      msgStoreInv db = true → msgStoreInv (createMessage db r).2 = true) ∧
    (∀ (db : MsgDB) (now id : Nat) (r : UpdateMsgReq),
      msgStoreInv db = true → msgStoreInv (updateMessage db now id r).2 = true) :=
  ⟨validateMessage_priority_mem, createMessage_rejects_nonenum,
   msgStoreInv_create, msgStoreInv_update⟩

/-- An urgent contact-form submission: passes the route validators, and
the classifier labels it `CEO`. -/
def reqUrgent : CreateMsgReq :=
  { name := "Ann", email := "ann@b.co", phone := none, subject := "urgent help"
    message := "please respond", category := none, ip := none, userAgent := none }

/-- An ordinary submission the classifier labels `medium`. -/
def reqHello : CreateMsgReq :=
  { name := "Bob", email := "b@c.co", phone := none, subject := "hello there"
    message := "just saying hi", category := none, ip := none, userAgent := none }

/-- The empty message store. -/
def emptyMsgDB : MsgDB := { nextId := 0, messages := [] }

/-- A schema-valid stored message, unread. -/
def storedMsg : MessageDoc :=
  { name := "Cid", email := "c@d.co", phone := none, subject := "about an order"
    message := "is it shipped", isRead := false, readAt := none, replied := false
    repliedAt := none, priority := "medium", category := "general", source := "website"
    ipAddress := none, userAgent := none, notes := [] }

/-- A store holding `storedMsg` under id 0. -/
def oneMsgDB : MsgDB := { nextId := 1, messages := [(0, storedMsg)] }

/-- An admin update that tries to set priority `CEO`. -/
def updSetCEO : UpdateMsgReq :=
  { isRead := none, replied := none, priority := some "CEO", category := none }

/-- Witness for C2: concretely, the urgent request (classified `CEO`)
leaves the store unchanged without a 201, an ordinary create keeps the
invariant, and an admin update to `CEO` keeps the invariant. -/
theorem C2_priority_enum_invariant_witness :
    ((createMessage emptyMsgDB reqUrgent).2 = emptyMsgDB ∧
      (createMessage emptyMsgDB reqUrgent).1.status ≠ 201) ∧
    msgStoreInv (createMessage emptyMsgDB reqHello).2 = true ∧
    msgStoreInv (updateMessage oneMsgDB 7 0 updSetCEO).2 = true :=
  ⟨C2_priority_enum_invariant.2.1 emptyMsgDB reqUrgent (by decide),
   C2_priority_enum_invariant.2.2.1 emptyMsgDB reqHello (by decide),
   C2_priority_enum_invariant.2.2.2 oneMsgDB 7 0 updSetCEO (by decide)⟩

/-! ### C3: pagination shape -/

/-- For a positive limit, the endpoints' `Math.ceil(total / limit)` is
ceiling division. -/
theorem jsCeilPages_eq_ceilDiv (T L : Nat) (hL : 0 < L) :
    jsCeilPages T (L : Int) = T ⌈/⌉ L := by
  unfold jsCeilPages
  rw [if_neg (by omega : ¬(L : Int) ≤ 0)]
  simp [Nat.instCeilDiv, Int.toNat_natCast]

/-- C3: for total `T` matching records and effective limit `L > 0`, a list
endpoint answers success with pagination `{current = page, pages = ⌈T/L⌉,
total = T, limit = L}` — `pages` being the least `q` with `T ≤ L·q` — and
a page past the last one yields an empty data array, not an error.
Concretely, `T = 25, L = 10` gives `pages = 3` and `page = 4` is empty. -/
theorem C3_pagination_shape :
    (∀ (α : Type) (docs : List α) (page limit : Nat), 0 < limit → 0 < page →
      (paginateResp docs (page : Int) (limit : Int)).status = 200 ∧
      (paginateResp docs (page : Int) (limit : Int)).success = true ∧
      (paginateResp docs (page : Int) (limit : Int)).pagination =
        some { current := (page : Int), pages := docs.length ⌈/⌉ limit,
               total := docs.length, limit := (limit : Int) } ∧
      docs.length ≤ limit * (docs.length ⌈/⌉ limit) ∧
      (∀ q : Nat, docs.length ≤ limit * q → docs.length ⌈/⌉ limit ≤ q) ∧
      (docs.length ≤ (page - 1) * limit →
        (paginateResp docs (page : Int) (limit : Int)).data = [])) ∧
    jsCeilPages 25 10 = 3 ∧
    (paginateResp (List.range 25) 4 10).data = [] ∧
    (paginateResp (List.range 25) 4 10).success = true ∧
    (paginateResp (List.range 25) 4 10).pagination =
      some { current := 4, pages := 3, total := 25, limit := 10 } := by
  refine ⟨?_, by decide, by decide, by decide, by decide⟩
  intro α docs page limit hL hp
  refine ⟨rfl, rfl, ?_, ?_, ?_, ?_⟩
  · simp [paginateResp, jsCeilPages_eq_ceilDiv _ _ hL]
  · exact (ceilDiv_le_iff_le_mul hL).1 le_rfl
  · intro q hq; exact (ceilDiv_le_iff_le_mul hL).2 hq
  · intro hpast
    simp only [paginateResp, pageSlice]
    have hsk : (((page : Int) - 1) * (limit : Int)).toNat = (page - 1) * limit := by
      have h1 : ((page : Int) - 1) = ((page - 1 : Nat) : Int) := by omega
      rw [h1, ← Int.natCast_mul, Int.toNat_natCast]
    rw [hsk, List.drop_eq_nil_of_le hpast, List.take_nil]

/-- Witness for C3: the general part applied at `T = 25`, `L = 10`,
`page = 4`. -/
theorem C3_pagination_shape_witness :
    (paginateResp (List.range 25) ((4 : Nat) : Int) ((10 : Nat) : Int)).data = [] ∧
    (25 : Nat) ≤ 10 * (25 ⌈/⌉ 10) ∧ (25 : Nat) ⌈/⌉ 10 ≤ 3 :=
  have h := C3_pagination_shape.1 Nat (List.range 25) 4 10 (by decide) (by decide)
  ⟨h.2.2.2.2.2 (by simp), by simpa using h.2.2.2.1, h.2.2.2.2.1 3 (by decide)⟩

/-! ### C4: page/limit defaults and the (missing) products cap -/

/-- Counterexample to C4: the products list endpoint neither caps nor
rejects `limit=500` — the request succeeds and the effective limit is
500, which exceeds 100. -/
theorem C4_counterexample :
    (productsList ([] : List ProductDoc) { limit := some "500" }).pagination =
      some { current := 1, pages := 0, total := 0, limit := 500 } ∧
    (productsList ([] : List ProductDoc) { limit := some "500" }).status = 200 ∧
    ¬((500 : Int) ≤ 100) := by
  refine ⟨by decide, by decide, by decide⟩

/-- Helper: a parsed integer above 100 fails `isInt({ min: 1, max: 100 })`. -/
theorem evIsIntBetween_gt_false {s : String} {n : Int} (h : evIntVal s = some n)
    (hn : 100 < n) : evIsIntBetween s 1 100 = false := by
  simp only [evIsIntBetween, h, Bool.and_eq_false_iff]
  right; simp; omega

/-- Helper: a non-positive parsed integer fails `isInt({ min: 1, max: 100 })`. -/
theorem evIsIntBetween_nonpos_false {s : String} {n : Int} (h : evIntVal s = some n)
    (hn : n ≤ 0) : evIsIntBetween s 1 100 = false := by
  simp only [evIsIntBetween, h, Bool.and_eq_false_iff]
  left; simp; omega

/-- Helper: a non-positive parsed integer fails `isInt({ min: 1 })`. -/
theorem evIsIntMin_nonpos_false {s : String} {n : Int} (h : evIntVal s = some n)
    (hn : n ≤ 0) : evIsIntMin s 1 = false := by
  simp only [evIsIntMin, h]
  simp; omega

/-- C4 as amended: on the paginated, validator-guarded list endpoints —
messages, team, certificates, categories — `page` defaults to 1 and must
be a positive integer, `limit` defaults per-resource (10, 10, 10, 50),
and a non-positive or over-100 limit (or non-positive page) is rejected
with 400.  The products list endpoint defaults `page` to 1 and `limit`
to 100 but runs no validator, so a limit above 100 (e.g. 500) is used
as-is, neither capped nor rejected.  The contact-methods list endpoint
does not paginate at all: the handler never reads `page` or `limit`, and
requests carrying them succeed unvalidated. -/
theorem C4_page_limit_defaults :
    -- products: defaults 1/100, no cap
    ((∀ (docs : List ProductDoc) (q : ProductsQuery), q.page = none → q.limit = none →
      ∃ pg, (productsList docs q).pagination = some pg ∧ pg.current = 1 ∧ pg.limit = 100) ∧
     (∀ docs : List ProductDoc, ∃ pg,
      (productsList docs { limit := some "500" }).pagination = some pg ∧ pg.limit = 500 ∧
      (productsList docs { limit := some "500" }).status = 200)) ∧
    -- team: defaults 1/10, 400 on out-of-range page/limit
    ((∀ docs : List TeamDoc, ∃ pg, (teamList docs {}).pagination = some pg ∧
      pg.current = 1 ∧ pg.limit = 10) ∧
     (∀ (docs : List TeamDoc) (s : String) (n : Int), evIntVal s = some n → 100 < n →
      (teamList docs { limit := some s }).status = 400 ∧
      (teamList docs { limit := some s }).pagination = none) ∧
     (∀ (docs : List TeamDoc) (s : String) (n : Int), evIntVal s = some n → n ≤ 0 →
      (teamList docs { limit := some s }).status = 400) ∧
     (∀ (docs : List TeamDoc) (s : String) (n : Int), evIntVal s = some n → n ≤ 0 →
      (teamList docs { page := some s }).status = 400)) ∧
    -- messages: defaults 1/10, 400 on out-of-range page/limit
    ((∀ db : MsgDB, ∃ pg, (messagesList db {}).pagination = some pg ∧
      pg.current = 1 ∧ pg.limit = 10) ∧
     (∀ (db : MsgDB) (s : String) (n : Int), evIntVal s = some n → 100 < n →
      (messagesList db { limit := some s }).status = 400 ∧
      (messagesList db { limit := some s }).pagination = none) ∧
     (∀ (db : MsgDB) (s : String) (n : Int), evIntVal s = some n → n ≤ 0 →
      (messagesList db { limit := some s }).status = 400) ∧
     (∀ (db : MsgDB) (s : String) (n : Int), evIntVal s = some n → n ≤ 0 →
      (messagesList db { page := some s }).status = 400)) ∧
    -- certificates: defaults 1/10, 400 on out-of-range page/limit
    ((∀ docs : List CertificateDoc, ∃ pg, (certificatesList docs {}).pagination = some pg ∧
      pg.current = 1 ∧ pg.limit = 10) ∧
     (∀ (docs : List CertificateDoc) (s : String) (n : Int), evIntVal s = some n → 100 < n →
      (certificatesList docs { limit := some s }).status = 400 ∧
      (certificatesList docs { limit := some s }).pagination = none) ∧
     (∀ (docs : List CertificateDoc) (s : String) (n : Int), evIntVal s = some n → n ≤ 0 →
      (certificatesList docs { limit := some s }).status = 400) ∧
     (∀ (docs : List CertificateDoc) (s : String) (n : Int), evIntVal s = some n → n ≤ 0 →
      (certificatesList docs { page := some s }).status = 400)) ∧
    -- categories: defaults 1/50, 400 on out-of-range page/limit
    ((∀ (cats : List (String × CategoryDoc)) (prods : List ProductDoc),
      ∃ pg, (categoriesList cats prods {}).pagination = some pg ∧
        pg.current = 1 ∧ pg.limit = 50) ∧
     (∀ (cats : List (String × CategoryDoc)) (prods : List ProductDoc) (s : String) (n : Int),
      evIntVal s = some n → 100 < n →
      (categoriesList cats prods { limit := some s }).status = 400 ∧
      (categoriesList cats prods { limit := some s }).pagination = none) ∧
     (∀ (cats : List (String × CategoryDoc)) (prods : List ProductDoc) (s : String) (n : Int),
      evIntVal s = some n → n ≤ 0 →
      (categoriesList cats prods { limit := some s }).status = 400) ∧
     (∀ (cats : List (String × CategoryDoc)) (prods : List ProductDoc) (s : String) (n : Int),
      evIntVal s = some n → n ≤ 0 →
      (categoriesList cats prods { page := some s }).status = 400)) ∧
    -- contact methods: page/limit never read, never rejected
    ((∀ (docs : List ContactDoc) (q : ContactsQuery) (p l : Option String),
      contactsList docs { q with page := p, limit := l } = contactsList docs q) ∧
     (∀ docs : List ContactDoc,
      (contactsList docs { page := some "4", limit := some "500" }).status = 200 ∧
      (contactsList docs { page := some "4", limit := some "500" }).success = true)) := by
  refine ⟨⟨?_, ?_⟩, ⟨?_, ?_, ?_, ?_⟩, ⟨?_, ?_, ?_, ?_⟩, ⟨?_, ?_, ?_, ?_⟩,
    ⟨?_, ?_, ?_, ?_⟩, ⟨?_, ?_⟩⟩
  · rintro docs ⟨p, l, c, se, f, i⟩ hp hl
    simp only at hp hl
    subst hp; subst hl
    exact ⟨_, rfl, rfl, rfl⟩
  · intro docs
    exact ⟨_, rfl, (by decide : jsParseIntOr (some "500") 100 = (500 : Int)), rfl⟩
  · intro docs
    exact ⟨_, rfl, rfl, rfl⟩
  · intro docs s n h hn
    constructor <;> simp [teamList, teamListValid, evIsIntBetween_gt_false h hn]
  · intro docs s n h hn
    simp [teamList, teamListValid, evIsIntBetween_nonpos_false h hn]
  · intro docs s n h hn
    simp [teamList, teamListValid, evIsIntMin_nonpos_false h hn]
  · intro db
    exact ⟨_, rfl, rfl, rfl⟩
  · intro db s n h hn
    constructor <;> simp [messagesList, messagesListValid, evIsIntBetween_gt_false h hn]
  · intro db s n h hn
    simp [messagesList, messagesListValid, evIsIntBetween_nonpos_false h hn]
  · intro db s n h hn
    simp [messagesList, messagesListValid, evIsIntMin_nonpos_false h hn]
  · intro docs
    exact ⟨_, rfl, rfl, rfl⟩
  · intro docs s n h hn
    constructor <;> simp [certificatesList, certificatesListValid, evIsIntBetween_gt_false h hn]
  · intro docs s n h hn
    simp [certificatesList, certificatesListValid, evIsIntBetween_nonpos_false h hn]
  · intro docs s n h hn
    simp [certificatesList, certificatesListValid, evIsIntMin_nonpos_false h hn]
  · intro cats prods
    exact ⟨_, rfl, rfl, rfl⟩
  · intro cats prods s n h hn
    constructor <;> simp [categoriesList, categoriesListValid, evIsIntBetween_gt_false h hn]
  · intro cats prods s n h hn
    simp [categoriesList, categoriesListValid, evIsIntBetween_nonpos_false h hn]
  · intro cats prods s n h hn
    simp [categoriesList, categoriesListValid, evIsIntMin_nonpos_false h hn]
  · rintro docs ⟨p, l, sb, so⟩ p2 l2
    rfl
  · intro docs
    exact ⟨rfl, rfl⟩

/-- Witness for C4 (amended): both products defaults and the uncapped
500; concrete 400 rejections for team, messages, certificates and
categories; categories default limit 50; concrete page/limit
indifference and acceptance on the contact-methods endpoint. -/
theorem C4_page_limit_defaults_witness :
    (∃ pg, (productsList ([] : List ProductDoc) {}).pagination = some pg ∧
      pg.current = 1 ∧ pg.limit = 100) ∧
    (∃ pg, (productsList ([] : List ProductDoc) { limit := some "500" }).pagination = some pg ∧
      pg.limit = 500 ∧
      (productsList ([] : List ProductDoc) { limit := some "500" }).status = 200) ∧
    (∃ pg, (teamList ([] : List TeamDoc) {}).pagination = some pg ∧
      pg.current = 1 ∧ pg.limit = 10) ∧
    (teamList ([] : List TeamDoc) { limit := some "500" }).status = 400 ∧
    (teamList ([] : List TeamDoc) { limit := some "0" }).status = 400 ∧
    (teamList ([] : List TeamDoc) { page := some "-3" }).status = 400 ∧
    (∃ pg, (messagesList emptyMsgDB {}).pagination = some pg ∧
      pg.current = 1 ∧ pg.limit = 10) ∧
    (messagesList emptyMsgDB { limit := some "101" }).status = 400 ∧
    (certificatesList ([] : List CertificateDoc) { limit := some "500" }).status = 400 ∧
    (∃ pg, (categoriesList [] [] {}).pagination = some pg ∧
      pg.current = 1 ∧ pg.limit = 50) ∧
    (categoriesList [] [] { limit := some "200" }).status = 400 ∧
    contactsList ([] : List ContactDoc) { page := some "9", limit := some "500" } =
      contactsList ([] : List ContactDoc) {} ∧
    (contactsList ([] : List ContactDoc) { page := some "4", limit := some "500" }).status = 200 :=
  ⟨C4_page_limit_defaults.1.1 [] {} rfl rfl,
   C4_page_limit_defaults.1.2 [],
   C4_page_limit_defaults.2.1.1 [],
   (C4_page_limit_defaults.2.1.2.1 [] "500" 500 (by decide) (by decide)).1,
   C4_page_limit_defaults.2.1.2.2.1 [] "0" 0 (by decide) (by decide),
   C4_page_limit_defaults.2.1.2.2.2 [] "-3" (-3) (by decide) (by decide),
   C4_page_limit_defaults.2.2.1.1 emptyMsgDB,
   (C4_page_limit_defaults.2.2.1.2.1 emptyMsgDB "101" 101 (by decide) (by decide)).1,
   (C4_page_limit_defaults.2.2.2.1.2.1 [] "500" 500 (by decide) (by decide)).1,
   C4_page_limit_defaults.2.2.2.2.1.1 [] [],
   (C4_page_limit_defaults.2.2.2.2.1.2.1 [] [] "200" 200 (by decide) (by decide)).1,
   C4_page_limit_defaults.2.2.2.2.2.1 [] {} (some "9") (some "500"),
   (C4_page_limit_defaults.2.2.2.2.2.2 []).1⟩

/-! ### C5: boolean query filters -/

theorem mem_pageSlice {α : Type} {l : List α} {page limit : Int} {d : α}
    (h : d ∈ pageSlice l page limit) : d ∈ l :=
  List.drop_subset _ _ (List.take_subset _ _ h)

theorem mem_productsList_data {docs : List ProductDoc} {q : ProductsQuery} {d : ProductDoc}
    (h : d ∈ (productsList docs q).data) : productMatches q d = true ∧ d ∈ docs := by
  have h1 := mem_pageSlice h
  rw [mem_sortDesc] at h1
  exact ⟨(List.mem_filter.mp h1).2, (List.mem_filter.mp h1).1⟩

theorem productMatches_inStock_eq {q : ProductsQuery} {d : ProductDoc} {s : String}
    (h : productMatches q d = true) (hs : q.inStock = some s) : d.inStock = (s == "true") := by
  simp only [productMatches, hs, Bool.and_eq_true] at h
  have := h.1.2
  exact beq_iff_eq.mp this

theorem productMatches_featured_eq {q : ProductsQuery} {d : ProductDoc} {s : String}
    (h : productMatches q d = true) (hs : q.featured = some s) : d.featured = (s == "true") := by
  simp only [productMatches, hs, Bool.and_eq_true] at h
  have := h.1.1.2
  exact beq_iff_eq.mp this

/-- A concrete in-stock product. -/
def prodIn : ProductDoc :=
  { name := "Mint", description := "fresh", image := "img", imagePublicId := none
    category := "aaaaaaaaaaaaaaaaaaaaaaaa", price := none, inStock := true
    featured := false, tags := [], origin := none, certifications := [], createdAt := 1 }

/-- The same product out of stock, created earlier. -/
def prodOut : ProductDoc := { prodIn with inStock := false, createdAt := 0 }

/-- C5: on the products list, `inStock=true` (likewise `featured=true`)
returns only documents with that field true, the literal `"false"` only
those with it false, and an absent parameter applies no filter at all —
the match predicate is independent of the field, and a store with both
states returns both. -/
theorem C5_boolean_filters :
    (∀ (docs : List ProductDoc) (q : ProductsQuery), q.inStock = some "true" →
      ∀ d ∈ (productsList docs q).data, d.inStock = true) ∧
    (∀ (docs : List ProductDoc) (q : ProductsQuery), q.inStock = some "false" →
      ∀ d ∈ (productsList docs q).data, d.inStock = false) ∧
    (∀ (docs : List ProductDoc) (q : ProductsQuery), q.featured = some "true" →
      ∀ d ∈ (productsList docs q).data, d.featured = true) ∧
    (∀ (docs : List ProductDoc) (q : ProductsQuery), q.featured = some "false" →
      ∀ d ∈ (productsList docs q).data, d.featured = false) ∧
    (∀ (q : ProductsQuery) (d : ProductDoc) (b b' : Bool), q.inStock = none → q.featured = none →
      productMatches q { d with inStock := b, featured := b' } = productMatches q d) ∧
    (productsList [prodOut, prodIn] {}).data = [prodIn, prodOut] := by
  refine ⟨?_, ?_, ?_, ?_, ?_, by decide⟩
  · intro docs q hq d hd
    simpa using productMatches_inStock_eq (mem_productsList_data hd).1 hq
  · intro docs q hq d hd
    simpa using productMatches_inStock_eq (mem_productsList_data hd).1 hq
  · intro docs q hq d hd
    simpa using productMatches_featured_eq (mem_productsList_data hd).1 hq
  · intro docs q hq d hd
    simpa using productMatches_featured_eq (mem_productsList_data hd).1 hq
  · rintro ⟨p, l, c, se, f, i⟩ d b b' hi hf
    simp only at hi hf
    subst hi; subst hf
    rfl

/-- Witness for C5: the filtered concrete store, and filter-independence
at a concrete query. -/
theorem C5_boolean_filters_witness :
    ((productsList [prodOut, prodIn] { inStock := some "true" }).data.all
      fun d => d.inStock) = true ∧
    prodIn.inStock = true ∧
    productMatches { search := some "mint" } { prodIn with inStock := false, featured := true } =
      productMatches { search := some "mint" } prodIn := by
  refine ⟨?_, rfl, C5_boolean_filters.2.2.2.2.1 _ prodIn false true rfl rfl⟩
  rw [List.all_eq_true]
  intro d hd
  have := C5_boolean_filters.1 [prodOut, prodIn] _ rfl d (by simpa using hd)
  simp [this]


/-! ### C6: the category deletion guard -/

theorem lookup_filter_ne {β : Type} (l : List (String × β)) (id : String) :
    (l.filter fun p => p.1 ≠ id).lookup id = none := by
  induction l with
  | nil => rfl
  | cons x xs ih =>
    rcases x with ⟨k, v⟩
    by_cases hx : k = id
    · simp only [List.filter_cons]
      rw [if_neg (by simp [hx])]
      exact ih
    · simp only [List.filter_cons]
      rw [if_pos (by simp [hx])]
      have hbeq : (id == k) = false := by
        simp [beq_eq_false_iff_ne, Ne.symm hx]
      simp only [List.lookup, hbeq]
      exact ih

/-- C6: deleting a category that `N > 0` products reference is refused
with a 400 whose message contains `N` (the exact message is proved, and
`N`'s decimal form occurs in it), leaving the store unchanged; with zero
referencing products the deletion succeeds and removes the category. -/
theorem C6_category_delete_guard :
    ∀ (cats : List (String × CategoryDoc)) (prods : List ProductDoc) (id : String)
      (cat : CategoryDoc), cats.lookup id = some cat →
      (0 < (prods.filter fun p => p.category == id).length →
        (deleteCategory cats prods id).1.status = 400 ∧
        (deleteCategory cats prods id).1.success = false ∧
        (deleteCategory cats prods id).1.message =
          "Cannot delete category. It has " ++
            toString (prods.filter fun p => p.category == id).length ++
            " products. Please move or delete the products first." ∧
        strIncludes (deleteCategory cats prods id).1.message
          (toString (prods.filter fun p => p.category == id).length) = true ∧
        (deleteCategory cats prods id).2 = cats) ∧
      ((prods.filter fun p => p.category == id).length = 0 →
        (deleteCategory cats prods id).1.status = 200 ∧
        (deleteCategory cats prods id).1.success = true ∧
        ((deleteCategory cats prods id).2).lookup id = none) := by
  intro cats prods id cat h
  constructor
  · intro hn
    have e : deleteCategory cats prods id =
        ({ status := 400, success := false
           message := "Cannot delete category. It has " ++
             toString (prods.filter fun p => p.category == id).length ++
             " products. Please move or delete the products first." }, cats) := by
      simp only [deleteCategory, h, if_pos hn]
    rw [e]
    exact ⟨rfl, rfl, rfl, strIncludes_append _ _ _, rfl⟩
  · intro hn
    have e : deleteCategory cats prods id =
        ({ status := 200, success := true, message := "Category deleted successfully" },
          cats.filter fun p => p.1 ≠ id) := by
      simp only [deleteCategory, h,
        if_neg (by omega : ¬0 < (prods.filter fun p => p.category == id).length)]
    rw [e]
    exact ⟨rfl, rfl, lookup_filter_ne _ _⟩

/-- A concrete stored category. -/
def catHerbs : CategoryDoc := { name := "Herbs" }

/-- A product referencing `cat1`. -/
def prodOfCat (i : Nat) : ProductDoc :=
  { name := "p", description := "d", image := "img", imagePublicId := none
    category := "cat1", price := none, inStock := true, featured := false
    tags := [], origin := none, certifications := [], createdAt := i }

/-- Witness for C6: a category with 3 referencing products fails with a
message containing "3"; with none, deletion succeeds. -/
theorem C6_category_delete_guard_witness :
    ((deleteCategory [("cat1", catHerbs)] [prodOfCat 0, prodOfCat 1, prodOfCat 2] "cat1").1.status = 400 ∧
      strIncludes (deleteCategory [("cat1", catHerbs)] [prodOfCat 0, prodOfCat 1, prodOfCat 2] "cat1").1.message "3" = true ∧
      (deleteCategory [("cat1", catHerbs)] [prodOfCat 0, prodOfCat 1, prodOfCat 2] "cat1").2 = [("cat1", catHerbs)]) ∧
    ((deleteCategory [("cat1", catHerbs)] [] "cat1").1.success = true ∧
      ((deleteCategory [("cat1", catHerbs)] [] "cat1").2).lookup "cat1" = none) :=
  have h3 := C6_category_delete_guard [("cat1", catHerbs)]
    [prodOfCat 0, prodOfCat 1, prodOfCat 2] "cat1" catHerbs (by decide)
  have h0 := C6_category_delete_guard [("cat1", catHerbs)] [] "cat1" catHerbs (by decide)
  ⟨⟨(h3.1 (by decide)).1, by simpa using (h3.1 (by decide)).2.2.2.1, (h3.1 (by decide)).2.2.2.2⟩,
   ⟨(h0.2 (by decide)).2.1, (h0.2 (by decide)).2.2⟩⟩


/-! ### C7: store-layer error mapping -/

/-- Counterexample to C7: a Message creation that passes the route's
input validation but whose document fails schema validation (the urgent
request is classified `CEO`, outside the priority enum) is answered with
500, not 400. -/
theorem C7_counterexample :
    msgBodyValid reqUrgent = true ∧
    validateMessage (buildMessageDoc reqUrgent) = false ∧
    (createMessage emptyMsgDB reqUrgent).1.status = 500 ∧
    ¬(createMessage emptyMsgDB reqUrgent).1.status = 400 :=
  ⟨by decide, by decide, by decide, by decide⟩

/-- C7 as amended: the products create handler maps every store-layer
failure to 400 (never 500), but the Message create handler maps a
schema-validation failure — indeed every store-layer error — to 500 and
stores nothing. -/
theorem C7_store_error_mapping :
    (∀ (cats : List (String × CategoryDoc)) (prods : List ProductDoc) (now : Nat)
      (r : CreateProductReq), (createProduct cats prods now r).1.status ≠ 500) ∧
    (∀ (db : MsgDB) (r : CreateMsgReq), msgBodyValid r = true →
      validateMessage (buildMessageDoc r) = false →
      (createMessage db r).1.status = 500 ∧ (createMessage db r).2 = db) := by
  constructor
  · intro cats prods now r
    unfold createProduct
    split
    · split_ifs
      · simp
      · simp
      · split
        · simp
        · dsimp only
          split_ifs <;> simp
    · simp
  · intro db r h1 h2
    unfold createMessage
    simp [h1, h2]

/-- A product create request whose document violates the schema
(`price` below the `min: 0` bound). -/
def prodReqBadPrice : CreateProductReq :=
  { name := some "Basil", description := some "leafy"
    category := some "aaaaaaaaaaaaaaaaaaaaaaaa", price := some (-5) }

/-- Witness for C7 (amended): the urgent message create answers 500; the
schema-violating product create answers 400, not 500. -/
theorem C7_store_error_mapping_witness :
    ((createMessage emptyMsgDB reqUrgent).1.status = 500 ∧
      (createMessage emptyMsgDB reqUrgent).2 = emptyMsgDB) ∧
    (createProduct [("aaaaaaaaaaaaaaaaaaaaaaaa", catHerbs)] [] 0 prodReqBadPrice).1.status ≠ 500 ∧
    validateProduct
      { name := "Basil", description := "leafy"
        image := "https://via.placeholder.com/300x300?text=No+Image", imagePublicId := none
        category := "aaaaaaaaaaaaaaaaaaaaaaaa", price := some (-5), inStock := true
        featured := false, tags := [], origin := none, certifications := [], createdAt := 0 } = false ∧
    (createProduct [("aaaaaaaaaaaaaaaaaaaaaaaa", catHerbs)] [] 0 prodReqBadPrice).1.status = 400 :=
  ⟨C7_store_error_mapping.2 emptyMsgDB reqUrgent (by decide) (by decide),
   C7_store_error_mapping.1 [("aaaaaaaaaaaaaaaaaaaaaaaa", catHerbs)] [] 0 prodReqBadPrice,
   by decide, by decide⟩


/-! ### C8: GET marks a message read -/

theorem lookup_map_replace (l : List (Nat × MessageDoc)) (id : Nat) (d m : MessageDoc)
    (h : l.lookup id = some m) :
    (l.map fun p => if p.1 = id then (id, d) else p).lookup id = some d := by
  induction l with
  | nil => simp at h
  | cons x xs ih =>
    rcases x with ⟨k, v⟩
    simp only [List.map_cons]
    by_cases hk : k = id
    · subst hk
      rw [if_pos (rfl : (k, v).1 = k)]
      simp [List.lookup]
    · rw [if_neg (show ¬((k, v).1 = id) from hk)]
      have hbeq : (id == k) = false := by
        simp [beq_eq_false_iff_ne, Ne.symm hk]
      simp only [List.lookup, hbeq] at h ⊢
      exact ih h

theorem findMsg_replaceMsg_self (db : MsgDB) (id : Nat) (d m : MessageDoc)
    (h : findMsg db id = some m) : findMsg (replaceMsg db id d) id = some d :=
  lookup_map_replace db.messages id d m h

/-- Validation of `messageSchema` does not read `isRead`/`readAt`. -/
theorem validateMessage_isRead_invariant (m : MessageDoc) (b : Bool) (t : Option Nat) :
    validateMessage { m with isRead := b, readAt := t } = validateMessage m := rfl

/-- C8: fetching a stored message by id marks it read as a side effect:
an unread message gets `isRead := true` and `readAt := now` with every
other field unchanged; an already-read message leaves the store exactly
as it was.  (`validateMessage m` holds of every stored document, by the
C2 invariant.) -/
theorem C8_get_marks_read :
    ∀ (db : MsgDB) (now id : Nat) (m : MessageDoc), findMsg db id = some m →
      validateMessage m = true →
      (m.isRead = true → getMessage db now id = ({ status := 200, success := true }, db)) ∧
      (m.isRead = false →
        (getMessage db now id).1.status = 200 ∧
        (getMessage db now id).2 = replaceMsg db id { m with isRead := true, readAt := some now } ∧
        ∃ m', findMsg (getMessage db now id).2 id = some m' ∧
          m'.isRead = true ∧ m'.readAt = some now ∧
          m'.name = m.name ∧ m'.email = m.email ∧ m'.phone = m.phone ∧
          m'.subject = m.subject ∧ m'.message = m.message ∧
          m'.replied = m.replied ∧ m'.repliedAt = m.repliedAt ∧
          m'.priority = m.priority ∧ m'.category = m.category ∧ m'.source = m.source ∧
          m'.ipAddress = m.ipAddress ∧ m'.userAgent = m.userAgent ∧ m'.notes = m.notes) := by
  intro db now id m hf hv
  constructor
  · intro hr
    simp only [getMessage, hf, hr, if_true]
  · intro hr
    have hv' : validateMessage { m with isRead := true, readAt := some now } = true := by
      rw [validateMessage_isRead_invariant]; exact hv
    have e : getMessage db now id =
        ({ status := 200, success := true },
          replaceMsg db id { m with isRead := true, readAt := some now }) := by
      simp only [getMessage, hf, hr, Bool.false_eq_true, if_false, hv', if_true]
    rw [e]
    exact ⟨rfl, rfl, { m with isRead := true, readAt := some now },
      findMsg_replaceMsg_self db id _ m hf, rfl, rfl, rfl, rfl, rfl, rfl, rfl, rfl,
      rfl, rfl, rfl, rfl, rfl, rfl, rfl⟩

/-- Witness for C8: fetching the unread `storedMsg` stamps it read at 42;
fetching it again later leaves the store untouched. -/
theorem C8_get_marks_read_witness :
    (getMessage oneMsgDB 42 0).1.status = 200 ∧
    (getMessage oneMsgDB 42 0).2 =
      replaceMsg oneMsgDB 0 { storedMsg with isRead := true, readAt := some 42 } ∧
    getMessage (getMessage oneMsgDB 42 0).2 99 0 =
      ({ status := 200, success := true }, (getMessage oneMsgDB 42 0).2) :=
  have h1 := (C8_get_marks_read oneMsgDB 42 0 storedMsg (by decide) (by decide)).2 (by decide)
  have h2 := (C8_get_marks_read (getMessage oneMsgDB 42 0).2 99 0
    { storedMsg with isRead := true, readAt := some 42 }
    (by decide) (by decide)).1 (by decide)
  ⟨h1.1, h1.2.1, h2⟩


/-! ### C10: the dashboard unread count -/

/-- C10: the dashboard overview counts messages with `{ read: false }`,
but the schema's flag is `isRead` and no stored Message document carries
a `read` field, so the reported unread count is 0 for every store —
concretely, a store with one genuinely unread message still reports 0. -/
theorem C10_dashboard_unread_zero :
    (∀ msgs : List MessageDoc, dashboardUnreadCount msgs = 0) ∧
    storedMsg.isRead = false ∧
    actualUnreadCount [storedMsg] = 1 ∧
    dashboardUnreadCount [storedMsg] = 0 := by
  refine ⟨?_, by decide, by decide, by decide⟩
  intro msgs
  unfold dashboardUnreadCount
  have hnone : ∀ d : MessageDoc,
      fieldEquals (messageFields d) "read" (BVal.bool false) = false := by
    intro d
    simp [fieldEquals, messageFields_read_none d]
  have hfil : msgs.filter (fun d => fieldEquals (messageFields d) "read" (BVal.bool false)) = [] := by
    induction msgs with
    | nil => rfl
    | cons x xs ih => simp [List.filter_cons, hnone x, ih]
  simp [hfil]


end KSH
